import Mathlib

/-!
Shallow embedding of the connection/session establishment logic and the
bidirectional relay engine of `examples/gattcat.rs`.

The asynchronous loops of the source are embedded as executable functions
over explicit traces: each element of a trace is the winning arm of one
`select!` turn (together with the outcome of the I/O performed in that
arm's body), and the loop bodies are translated statement by statement.
MTUs are natural numbers; readers, writers and the local standard streams
are tracked as the optional slots the source keeps them in.
-/

namespace Gattcat

/-- A remote characteristic reader (`CharacteristicReader`): only its
advertised MTU is relevant to the relay logic. -/
structure CharacteristicReader where
  mtu : Nat
  deriving DecidableEq, Repr

/-- A remote characteristic writer (`CharacteristicWriter`): only its
advertised MTU is relevant to the relay logic. -/
structure CharacteristicWriter where
  mtu : Nat
  deriving DecidableEq, Repr

/-- Buffer-size selection performed at the top of each relay turn
(gattcat.rs lines 470-474 in `io_loop` and 790-794 in `io_loop_serve`):
the MTU of the remote reader if present, else of the remote writer if
present, else 100. -/
def relayMtu : Option CharacteristicReader → Option CharacteristicWriter → Nat
  | some rh, _ => rh.mtu
  | none, some wh => wh.mtu
  | none, none => 100

/-- Number of bytes a single remote read transfers in one turn: the read
fills `recv_buf`, whose capacity is the selected buffer size, from the
`avail` bytes the remote side has ready.  A remote read only happens when
the reader is present, so the first component of `relayMtu` is `some rh`. -/
def remoteReadLen (rh : CharacteristicReader) (wh : Option CharacteristicWriter)
    (avail : Nat) : Nat :=
  min avail (relayMtu (some rh) wh)

/-- Number of bytes a single local read transfers, and hence the size of the
`write_all` of `pin_buf` to the remote writer in that turn: the local read
fills `pin_buf`, whose capacity is the selected buffer size, from the
`avail` bytes the local side has ready. -/
def localForwardLen (rh : Option CharacteristicReader) (wh : CharacteristicWriter)
    (avail : Nat) : Nat :=
  min avail (relayMtu rh (some wh))

/-! ### Client relay loop (`io_loop`, gattcat.rs lines 455-530) -/

/-- The four exclusively-owned optional slots of the client relay session.
`pin`/`pout` record presence of the local input/output handles
(`pin`/`pout` in the source, which only interrogates them for presence). -/
structure IoLoopState where
  rh : Option CharacteristicReader
  wh : Option CharacteristicWriter
  pin : Bool
  pout : Bool
  deriving DecidableEq, Repr

/-- The winning arm of one `select!` turn of `io_loop`, together with the
outcome of the I/O performed in the arm body.  `remoteEnd`/`localEnd`
stand for a read completing with `Ok(0)` or `Err(_)`; the `writeOk` flag
on the data arms is the success of the subsequent forwarding write
(`pout.write_all` plus `flush`, resp. `wh.write_all`). -/
inductive IoArm
  | remoteEnd
  | remoteData (writeOk : Bool)
  | localEnd
  | localData (writeOk : Bool)
  deriving DecidableEq, Repr

/-- An arm can only win the race when its side is present: a wait on an
absent side is `future::pending()` and never completes. -/
def ioArmEnabled (s : IoLoopState) : IoArm → Bool
  | .remoteEnd | .remoteData _ => s.rh.isSome
  | .localEnd | .localData _ => s.pin

/-- Result of executing one arm body: the next state, or a panic from an
`unwrap` of an absent slot. -/
inductive IoStepRes
  | next (s : IoLoopState)
  | panicked
  deriving DecidableEq, Repr

/-- One arm body of `io_loop` (gattcat.rs lines 478-526), translated
branch by branch:
* remote read `Ok(0) | Err(_)`: `rh = None; pout = None` (and for std
  streams the OS-level stdout descriptor is closed);
* remote read with data: `pout.as_mut().unwrap()`, then on write/flush
  failure `rh = None` only;
* local read `Ok(0) | Err(_)`: `wh = None; pin = None`;
* local read with data: `wh.as_mut().unwrap()`, then on write failure
  `pin = None` only (and for std streams the stdin descriptor is closed). -/
def ioLoopStep (s : IoLoopState) : IoArm → IoStepRes
  | .remoteEnd => .next { s with rh := none, pout := false }
  | .remoteData writeOk =>
      if s.pout then
        if writeOk then .next s else .next { s with rh := none }
      else .panicked
  | .localEnd => .next { s with wh := none, pin := false }
  | .localData writeOk =>
      match s.wh with
      | some _ => if writeOk then .next s else .next { s with pin := false }
      | none => .panicked

/-- The loop-head exit condition of `io_loop` (gattcat.rs lines 462-468):
the `while` guard `rh.is_some() || pin.is_some()` has failed, or a
configured-required side has become absent. -/
def ioLoopDone (rhReq pinReq : Bool) (s : IoLoopState) : Bool :=
  !(s.rh.isSome || s.pin) || (rhReq && !s.rh.isSome) || (pinReq && !s.pin)

/-- Overall result of running a relay loop on a trace.  `ok` is the
`Ok(())` return; `err` is an `Err` return; `panicked` is an `unwrap`
failure; `stuck` means the given trace ended (or offered a disabled arm)
while the loop was still waiting. -/
inductive Outcome
  | ok
  | err (msg : String)
  | panicked
  | stuck
  deriving DecidableEq, Repr

/-- Run `io_loop` on a trace of turn outcomes.  `rhReq`/`pinReq` are the
`rh_required`/`pin_required` parameters; the single call site
(`ConnectOpts::perform`, line 418) passes `(is_tty, true)`. -/
def ioLoopRun (rhReq pinReq : Bool) (s : IoLoopState) : List IoArm → Outcome
  | [] => if ioLoopDone rhReq pinReq s then .ok else .stuck
  | a :: rest =>
      if ioLoopDone rhReq pinReq s then .ok
      else if ioArmEnabled s a then
        match ioLoopStep s a with
        | .next s2 => ioLoopRun rhReq pinReq s2 rest
        | .panicked => .panicked
      else .stuck

/-! ### Client endpoint negotiation (`ConnectOpts::perform`, lines 403-418) -/

/-- The capability check after the characteristic is located: `notify_io`
and `write_io` have been attempted independently and their results are the
two options; both absent is fatal (gattcat.rs lines 406-408). -/
def notifyWriteSetup (rh : Option CharacteristicReader) (wh : Option CharacteristicWriter) :
    Except String (Option CharacteristicReader × Option CharacteristicWriter) :=
  if rh.isNone && wh.isNone then .error "neither writing nor notify are supported"
  else .ok (rh, wh)

/-- The tail of `ConnectOpts::perform` after the characteristic is found:
capability check, then `io_loop(rh, wh, stdin, stdout, true, is_tty, true)`.
The relay is only entered when the capability check passes. -/
def connectSession (isTty : Bool) (rh : Option CharacteristicReader)
    (wh : Option CharacteristicWriter) (arms : List IoArm) : Except String Outcome := do
  let (rh2, wh2) ← notifyWriteSetup rh wh
  pure (ioLoopRun isTty true { rh := rh2, wh := wh2, pin := true, pout := true } arms)

/-! ### Connect retries (`ConnectOpts::find_characteristic`, lines 427-439) -/

/-- The `loop` of `find_characteristic` with `retries` remaining retries:
attempt `i` is `device.connect()`; success breaks (returning the number of
attempts made), failure retries while `retries > 0`, else surfaces the
error.  The source initialises `retries = 2`. -/
def connectAttemptLoop (att : Nat → Except String Unit) : Nat → Nat → Except String Nat
  | 0, i =>
      match att i with
      | .ok _ => .ok (i + 1)
      | .error e => .error e
  | r + 1, i =>
      match att i with
      | .ok _ => .ok (i + 1)
      | .error _ => connectAttemptLoop att r (i + 1)

/-- The connection step of `find_characteristic`: skipped entirely when the
device is already connected, else the retry loop with `retries = 2`.
Returns the number of connect attempts made. -/
def findCharacteristicConnect (connected : Bool) (att : Nat → Except String Unit) :
    Except String Nat :=
  if connected then .ok 0 else connectAttemptLoop att 2 0

/-! ### Client discovery scan (`ConnectOpts::perform`, lines 379-401) -/

/-- An adapter event observed by the connect scan loop.  A `deviceAdded`
event for the target carries the result of `find_characteristic` on that
occurrence: `some c` for `Ok(Some(char))`, `none` for `Ok(None)` or `Err`
(both of which disconnect, remove the device record and keep scanning). -/
inductive AdapterEvt
  | deviceAdded (addr : Nat) (found : Option Nat)
  | other
  deriving DecidableEq, Repr

/-- The error returned when the 15-second connect deadline expires
(gattcat.rs line 398). -/
def notFoundMsg : String := "device, service or characteristic not found"

/-- Whether a scan event is a successful match for the target address. -/
def isHit (target : Nat) : AdapterEvt → Bool
  | .deviceAdded a (some _) => a == target
  | _ => false

/-- The scan loop of `ConnectOpts::perform`: one `sleep` deadline created
before the loop (15 seconds at the call site) races the discovery stream;
the deadline is threaded through unchanged — no branch of the body ever
replaces it.  Events are timestamped with seconds since the deadline was
created; an event arriving at or after the deadline means the timeout arm
wins.  An exhausted trace leaves only the timeout arm to win. -/
def connectScan (target deadline : Nat) : List (Nat × AdapterEvt) → Except String Nat
  | [] => .error notFoundMsg
  | (t, e) :: rest =>
      if deadline ≤ t then .error notFoundMsg
      else
        match e with
        | .deviceAdded addr found =>
            if addr == target then
              match found with
              | some c => .ok c
              | none => connectScan target deadline rest
            else connectScan target deadline rest
        | .other => connectScan target deadline rest

/-! ### Discovery sweep (`DiscoverOpts::perform`, lines 178-236) -/

/-- The device facts the sweep consults: whether `address_type()` is
`Random`, and whether `rssi()` is currently available. -/
structure DevInfo where
  randomAddr : Bool
  rssiPresent : Bool
  deriving DecidableEq, Repr

/-- An event observed by the discovery sweep: a `DeviceAdded` adapter
event, an RSSI property change from a subscribed device's event stream,
any other adapter event (skipped with `continue`), or the discovery
stream ending (`None`, which breaks the loop). -/
inductive DiscEvt
  | deviceAdded (addr : Nat)
  | rssiChanged (addr : Nat)
  | adapterOther
  | streamEnd
  deriving DecidableEq, Repr

/-- Sweep state: the remaining filter addresses, the handled set, the set
of devices whose event streams were subscribed while waiting for RSSI, and
the current timeout deadline (the absolute time at which the pending
`sleep` fires). -/
structure DiscState where
  addresses : List Nat
  done : List Nat
  subscribed : List Nat
  deadline : Nat
  deriving DecidableEq, Repr

/-- Why the sweep loop ended. -/
inductive DiscStop
  | filterDone
  | timedOut
  | streamEnded
  deriving DecidableEq, Repr

/-- Body of the sweep once an address has been selected at time `t`
(gattcat.rs lines 208-232): skip (without touching the timeout) when the
address misses the filter, is already done, or is random while
`public_only` is set; otherwise handle the device (RSSI present) or
subscribe to its events (RSSI absent), and in both of these cases replace
the timeout with a fresh `sleep` of `T` seconds (line 232). -/
def discHandle (publicOnly filter : Bool) (T : Nat) (world : Nat → DevInfo)
    (s : DiscState) (t addr : Nat) : DiscState :=
  if (filter && !(s.addresses.contains addr)) || s.done.contains addr then s
  else if publicOnly && (world addr).randomAddr then s
  else if (world addr).rssiPresent then
    { s with addresses := s.addresses.erase addr, done := addr :: s.done,
             deadline := t + T }
  else
    { s with subscribed := addr :: s.subscribed, deadline := t + T }

/-- The sweep loop of `DiscoverOpts::perform`: at the top of each turn it
breaks as soon as the filter is active and every filter address has been
handled; otherwise it races the current timeout against the event
sources.  `filter` is fixed once before the loop (`!addresses.is_empty()`,
line 186).  RSSI property changes are only delivered for subscribed
devices. -/
def discoverLoop (publicOnly filter : Bool) (T : Nat) (world : Nat → DevInfo)
    (s : DiscState) : List (Nat × DiscEvt) → DiscStop × DiscState
  | [] =>
      if filter && s.addresses.isEmpty then (.filterDone, s) else (.timedOut, s)
  | (t, e) :: rest =>
      if filter && s.addresses.isEmpty then (.filterDone, s)
      else if s.deadline ≤ t then (.timedOut, s)
      else
        match e with
        | .streamEnd => (.streamEnded, s)
        | .adapterOther => discoverLoop publicOnly filter T world s rest
        | .deviceAdded addr =>
            discoverLoop publicOnly filter T world
              (discHandle publicOnly filter T world s t addr) rest
        | .rssiChanged addr =>
            if s.subscribed.contains addr then
              discoverLoop publicOnly filter T world
                (discHandle publicOnly filter T world s t addr) rest
            else discoverLoop publicOnly filter T world s rest

/-! ### Server relay loop (`io_loop_serve`, gattcat.rs lines 768-876) -/

/-- Server relay session state: the four optional slots plus the two
closed flags distinguishing "currently absent" from "permanently
closed". -/
structure ServeState where
  rh : Option CharacteristicReader
  wh : Option CharacteristicWriter
  pin : Bool
  pout : Bool
  rhClosed : Bool
  whClosed : Bool
  deriving DecidableEq, Repr

/-- A control-channel event (`CharacteristicControlEvent`): a write
request whose `accept()` may fail, a notify subscription delivering a
writer, or the channel being exhausted (`None`). -/
inductive CtrlEvt
  | writeReq (r : CharacteristicReader) (acceptOk : Bool)
  | notifyReq (w : CharacteristicWriter)
  | closed
  deriving DecidableEq, Repr

/-- The winning arm of one `select!` turn of `io_loop_serve`: the control
channel, a remote read, a local read, or the writer's closed
notification (whose `Result` the source unwraps). -/
inductive ServeArm
  | ctrl (e : CtrlEvt)
  | remoteEnd
  | remoteData (writeOk : Bool)
  | localEnd
  | localData (writeOk : Bool)
  | writerClosed (ok : Bool)
  deriving DecidableEq, Repr

/-- Arm enabledness in `io_loop_serve`: the control arm is always live;
remote reads need a reader; local reads are suppressed unless both the
local input and a remote writer are present (`wh_present` guard, line
839); the closed-watch needs a writer. -/
def serveArmEnabled (s : ServeState) : ServeArm → Bool
  | .ctrl _ => true
  | .remoteEnd | .remoteData _ => s.rh.isSome
  | .localEnd | .localData _ => s.pin && s.wh.isSome
  | .writerClosed _ => s.wh.isSome

/-- The loop-head exit condition of `io_loop_serve` (lines 779-788): the
`while` guard `!rh_closed || pin.is_some()` has failed, a required side is
gone, or the writer has been closed. -/
def serveLoopDone (rhReq pinReq : Bool) (s : ServeState) : Bool :=
  !(!s.rhClosed || s.pin) || (rhReq && s.rhClosed) || (pinReq && !s.pin) || s.whClosed

/-- A write-request control event whose `accept()` fails; the source
propagates this with `req.accept()?` (line 803). -/
def isAcceptFailure : ServeArm → Bool
  | .ctrl (.writeReq _ false) => true
  | _ => false

/-- Whether a serve trace contains a failing write-request accept. -/
def hasAcceptFailure (l : List ServeArm) : Bool := l.any isAcceptFailure

/-- Result of one arm body of `io_loop_serve`: the next state, a `break`
(channel exhausted), a propagated write-request accept error, or a panic
from an `unwrap`. -/
inductive ServeStepRes
  | next (s : ServeState)
  | brk
  | errAccept
  | panicked
  deriving DecidableEq, Repr

/-- One arm body of `io_loop_serve`, translated branch by branch from
gattcat.rs lines 799-872:
* a write request replaces `rh` (accept failure is propagated with
  `req.accept()?`); a notify subscription replaces `wh`; channel
  exhausted breaks;
* remote read end: `rh = None; rh_closed = true; pout = None`;
* remote data whose local write fails: `rh = None; rh_closed = true`;
* local read end: `wh = None; pin = None`;
* local data whose remote write fails: `wh = None; pin = None`;
* writer-closed notification: unwraps its `Result`, then
  `wh = None; wh_closed = true`. -/
def ioLoopServeStep (s : ServeState) : ServeArm → ServeStepRes
  | .ctrl (.writeReq r true) => .next { s with rh := some r }
  | .ctrl (.writeReq _ false) => .errAccept
  | .ctrl (.notifyReq w) => .next { s with wh := some w }
  | .ctrl .closed => .brk
  | .remoteEnd => .next { s with rh := none, rhClosed := true, pout := false }
  | .remoteData writeOk =>
      if s.pout then
        if writeOk then .next s else .next { s with rh := none, rhClosed := true }
      else .panicked
  | .localEnd => .next { s with wh := none, pin := false }
  | .localData writeOk =>
      match s.wh with
      | some _ => if writeOk then .next s else .next { s with wh := none, pin := false }
      | none => .panicked
  | .writerClosed ok =>
      if ok then .next { s with wh := none, whClosed := true } else .panicked

/-- Run `io_loop_serve` on a trace of turn outcomes.  The serve supervisor
calls this with `(rh_required, pin_required) = (true, false)`;
`ListenOpts::perform` with `(true, true)`. -/
def ioLoopServeRun (rhReq pinReq : Bool) (s : ServeState) : List ServeArm → Outcome
  | [] => if serveLoopDone rhReq pinReq s then .ok else .stuck
  | a :: rest =>
      if serveLoopDone rhReq pinReq s then .ok
      else if serveArmEnabled s a then
        match ioLoopServeStep s a with
        | .next s2 => ioLoopServeRun rhReq pinReq s2 rest
        | .brk => .ok
        | .errAccept => .err "accepting write request failed"
        | .panicked => .panicked
      else .stuck

/-! ### Serve supervisor (`ServeOpts::perform`, gattcat.rs lines 638-724) -/

/-- How a served session's race between relay completion and child exit
came out: the relay finished with `Ok` (its error is propagated by
`res?` otherwise), or the child process exited first. -/
inductive SessionOutcome
  | relayOk
  | relayErr
  | childExit
  deriving DecidableEq, Repr

/-- One iteration of the outer serving loop, summarised by how far it got:
a setup step (`make_app` or PTY allocation) failed and was propagated with
`?`; the control channel yielded `None` (break); the child process could
not be spawned (logged, `continue` — which skips the one-shot check); or a
session ran to its race outcome. -/
inductive ServeIter
  | setupErr
  | channelClosed
  | spawnFail
  | session (out : SessionOutcome)
  deriving DecidableEq, Repr

/-- Why the outer serving loop ended. -/
inductive ServeStop
  | channelClosed
  | errored
  | oneShotDone
  | ranOut
  deriving DecidableEq, Repr

/-- Result of the outer serving loop: how many sessions ran to a completed
race, and why the loop ended (`ranOut` meaning the given trace was
exhausted with the loop still accepting). -/
structure ServeResult where
  served : Nat
  stop : ServeStop
  deriving DecidableEq, Repr

/-- The outer serving loop of `ServeOpts::perform`: on a spawn failure it
`continue`s straight to the next iteration — in particular without
reaching the `if self.one_shot { break }` check at lines 721-723; after a
completed session it breaks iff `one_shot` is set; a relay error is
propagated (`res?`) and a setup error likewise (`?`). -/
def servePerformLoop (oneShot : Bool) : List ServeIter → ServeResult
  | [] => ⟨0, .ranOut⟩
  | it :: rest =>
      match it with
      | .setupErr => ⟨0, .errored⟩
      | .channelClosed => ⟨0, .channelClosed⟩
      | .spawnFail => servePerformLoop oneShot rest
      | .session .relayErr => ⟨0, .errored⟩
      | .session _ =>
          if oneShot then ⟨1, .oneShotDone⟩
          else
            let r := servePerformLoop oneShot rest
            ⟨r.served + 1, r.stop⟩

/-- A session that ran its race to completion (and did not propagate a
relay error). -/
def completedSession : ServeIter → Bool
  | .session .relayOk | .session .childExit => true
  | _ => false

/-- An iteration that neither closes the channel nor propagates an
error. -/
def normalIter : ServeIter → Bool
  | .setupErr | .channelClosed | .session .relayErr => false
  | _ => true

/-- Number of completed sessions in a trace of iterations. -/
def completedSessions (iters : List ServeIter) : Nat :=
  (iters.filter completedSession).length

/-! ## Theorems -/

/-- C1 counterexample: the claim that no single transfer exceeds the MTU of
the endpoint it passes through fails on the code.  With a remote reader of
MTU 200 present, the turn buffer is sized from the reader, and a local read
of 200 available bytes produces a single `write_all` of 200 bytes through a
remote writer whose advertised MTU is only 20. -/
theorem claim_C1_cex :
    localForwardLen (some ⟨200⟩) ⟨20⟩ 200 = 200 ∧ ¬(200 ≤ 20) := by
  decide

/-- C1 (amended): each relay turn sizes its buffer as the MTU of the remote
reader if present, else of the remote writer if present, else 100 bytes; a
remote read never exceeds the reader's MTU, and a write of one local-read
buffer to the remote writer never exceeds the selected buffer size — hence
it is bounded by the writer's MTU whenever no remote reader is present, but
may exceed the writer's MTU when a reader with a larger MTU is present. -/
theorem claim_C1 (rh : CharacteristicReader) (wh : CharacteristicWriter)
    (orh : Option CharacteristicReader) (owh : Option CharacteristicWriter)
    (avail : Nat) :
    relayMtu (some rh) owh = rh.mtu
  ∧ relayMtu none (some wh) = wh.mtu
  ∧ relayMtu none none = 100
  ∧ remoteReadLen rh owh avail ≤ rh.mtu
  ∧ localForwardLen orh wh avail ≤ relayMtu orh (some wh)
  ∧ (orh = none → localForwardLen orh wh avail ≤ wh.mtu) := by
  refine ⟨rfl, rfl, rfl, min_le_right _ _, min_le_right _ _, ?_⟩
  intro hno
  subst hno
  exact min_le_right _ _

/-- C1 witness: with a reader of MTU 200 present, a local-read forward of
150 available bytes through a writer of MTU 20 stays within the selected
buffer size (the reader's MTU); with no remote reader, a forward of 50
available bytes through a writer of MTU 20 stays within that writer's
MTU. -/
theorem claim_C1_witness :
    localForwardLen (some ⟨200⟩) ⟨20⟩ 150 ≤ relayMtu (some ⟨200⟩) (some ⟨20⟩)
  ∧ localForwardLen none ⟨20⟩ 50 ≤ 20 :=
  ⟨(claim_C1 ⟨200⟩ ⟨20⟩ (some ⟨200⟩) (some ⟨20⟩) 150).2.2.2.2.1,
   (claim_C1 ⟨30⟩ ⟨20⟩ none (some ⟨20⟩) 50).2.2.2.2.2 rfl⟩

/-- C2: half-close in `io_loop` is asymmetric.  A remote read ending in
`Ok(0)`/`Err` drops exactly `rh` and `pout`; a local read ending likewise
drops exactly `wh` and `pin`; a failure writing received remote data to the
local output drops `rh` only.  Consequently, when the corresponding side is
not configured as required, the loop is not done after the half-close:
remote EOF leaves local-input forwarding running and local EOF leaves
remote-to-local forwarding running. -/
theorem claim_C2 (s : IoLoopState) (rhReq pinReq : Bool)
    (hpout : s.pout = true) (hpin : s.pin = true) (hrh : s.rh.isSome = true) :
    ioLoopStep s .remoteEnd = .next { s with rh := none, pout := false }
  ∧ ioLoopStep s .localEnd = .next { s with wh := none, pin := false }
  ∧ ioLoopStep s (.remoteData false) = .next { s with rh := none }
  ∧ ioLoopDone false pinReq { s with rh := none, pout := false } = false
  ∧ ioLoopDone rhReq false { s with wh := none, pin := false } = false := by
  refine ⟨rfl, rfl, ?_, ?_, ?_⟩
  · simp [ioLoopStep, hpout]
  · simp [ioLoopDone, hpin]
  · simp [ioLoopDone, hrh]

/-- C2 witness: the half-close transitions at a concrete state with both
endpoints and both local streams present. -/
theorem claim_C2_witness :
    ioLoopStep ⟨some ⟨20⟩, some ⟨20⟩, true, true⟩ (.remoteData false)
      = .next ⟨none, some ⟨20⟩, true, true⟩
  ∧ ioLoopDone false true ⟨none, some ⟨20⟩, true, false⟩ = false :=
  ⟨(claim_C2 ⟨some ⟨20⟩, some ⟨20⟩, true, true⟩ true true rfl rfl rfl).2.2.1,
   (claim_C2 ⟨some ⟨20⟩, some ⟨20⟩, true, true⟩ true true rfl rfl rfl).2.2.2.1⟩

/-- C3: for a device that is not already connected, `find_characteristic`
makes at most 3 connect attempts (1 initial + 2 retries): success on any
attempt stops immediately with that attempt count, the first two failures
are retried silently, the error of the third failed attempt is surfaced,
and the outcome depends only on the first three attempt results. -/
theorem claim_C3 (att att2 : Nat → Except String Unit) (e : String) :
    findCharacteristicConnect true att = .ok 0
  ∧ (att 0 = .ok () → findCharacteristicConnect false att = .ok 1)
  ∧ (∀ e0, att 0 = .error e0 → att 1 = .ok () →
      findCharacteristicConnect false att = .ok 2)
  ∧ (∀ e0 e1, att 0 = .error e0 → att 1 = .error e1 → att 2 = .ok () →
      findCharacteristicConnect false att = .ok 3)
  ∧ (∀ e0 e1, att 0 = .error e0 → att 1 = .error e1 → att 2 = .error e →
      findCharacteristicConnect false att = .error e)
  ∧ ((∀ i, i < 3 → att i = att2 i) →
      findCharacteristicConnect false att = findCharacteristicConnect false att2) := by
  refine ⟨rfl, ?_, ?_, ?_, ?_, ?_⟩
  · intro h0
    simp [findCharacteristicConnect, connectAttemptLoop, h0]
  · intro e0 h0 h1
    simp [findCharacteristicConnect, connectAttemptLoop, h0, h1]
  · intro e0 e1 h0 h1 h2
    simp [findCharacteristicConnect, connectAttemptLoop, h0, h1, h2]
  · intro e0 e1 h0 h1 h2
    simp [findCharacteristicConnect, connectAttemptLoop, h0, h1, h2]
  · intro h
    have h0 := h 0 (by omega)
    have h1 := h 1 (by omega)
    have h2 := h 2 (by omega)
    simp only [findCharacteristicConnect, if_neg, Bool.false_eq_true,
      connectAttemptLoop, h0, h1, h2]

/-- C3 witness: three consecutive connect failures surface exactly the
third attempt's error. -/
theorem claim_C3_witness :
    findCharacteristicConnect false
      (fun i => if i = 0 then Except.error "first" else
        if i = 1 then Except.error "second" else Except.error "third")
      = Except.error "third" :=
  (claim_C3
    (fun i => if i = 0 then Except.error "first" else
      if i = 1 then Except.error "second" else Except.error "third")
    (fun _ => Except.ok ()) "third").2.2.2.2.1 "first" "second" rfl rfl rfl

/-- C4: after the characteristic is located, a notify stream alone or a
write stream alone passes the capability check, but when both `notify_io`
and `write_io` are absent the command fails with exactly
"neither writing nor notify are supported", and the relay loop is never
entered — the session result is that error for every relay trace. -/
theorem claim_C4 (r : CharacteristicReader) (w : CharacteristicWriter) (isTty : Bool)
    (arms arms2 : List IoArm) :
    notifyWriteSetup (some r) none = .ok (some r, none)
  ∧ notifyWriteSetup none (some w) = .ok (none, some w)
  ∧ connectSession isTty none none arms = .error "neither writing nor notify are supported"
  ∧ connectSession isTty none none arms = connectSession isTty none none arms2 :=
  ⟨rfl, rfl, rfl, rfl⟩

/-- Helper: the client relay loop `io_loop` never returns an error on any
state and any trace — every I/O failure inside the loop becomes a state
transition. -/
theorem ioLoopRun_ne_err (rhReq pinReq : Bool) (arms : List IoArm) :
    ∀ (s : IoLoopState) (msg : String), ioLoopRun rhReq pinReq s arms ≠ Outcome.err msg := by
  induction arms with
  | nil =>
      intro s msg
      simp only [ioLoopRun]
      split <;> simp
  | cons a rest ih =>
      intro s msg
      simp only [ioLoopRun]
      split
      · simp
      · split
        · rcases h : ioLoopStep s a with s2 | _
          · exact ih s2 msg
          · simp
        · simp

/-- Helper: only a write-request arm whose accept fails can make one serve
turn produce the propagated accept error. -/
theorem serveStep_errAccept {s : ServeState} {a : ServeArm}
    (h : ioLoopServeStep s a = .errAccept) : isAcceptFailure a = true := by
  cases a with
  | ctrl e =>
    cases e with
    | writeReq r acceptOk =>
      cases acceptOk
      · rfl
      · exact absurd h (by simp [ioLoopServeStep])
    | notifyReq w => exact absurd h (by simp [ioLoopServeStep])
    | closed => exact absurd h (by simp [ioLoopServeStep])
  | remoteEnd => exact absurd h (by simp [ioLoopServeStep])
  | remoteData writeOk =>
    refine absurd h ?_
    simp only [ioLoopServeStep]
    split
    · split <;> simp
    · simp
  | localEnd => exact absurd h (by simp [ioLoopServeStep])
  | localData writeOk =>
    refine absurd h ?_
    simp only [ioLoopServeStep]
    split
    · split <;> simp
    · simp
  | writerClosed ok =>
    refine absurd h ?_
    simp only [ioLoopServeStep]
    split <;> simp

/-- Helper: on a trace without a failing write-request accept, the server
relay loop `io_loop_serve` never returns an error either. -/
theorem ioLoopServeRun_ne_err (rhReq pinReq : Bool) (sarms : List ServeArm) :
    ∀ (s : ServeState) (msg : String), hasAcceptFailure sarms = false →
      ioLoopServeRun rhReq pinReq s sarms ≠ Outcome.err msg := by
  induction sarms with
  | nil =>
      intro s msg _
      simp only [ioLoopServeRun]
      split <;> simp
  | cons a rest ih =>
      intro s msg h
      have h2 : (isAcceptFailure a || hasAcceptFailure rest) = false := by
        simpa [hasAcceptFailure, List.any_cons] using h
      have hs : isAcceptFailure a = false ∧ hasAcceptFailure rest = false :=
        Bool.or_eq_false_iff.mp h2
      simp only [ioLoopServeRun]
      split
      · simp
      · split
        · rcases hstep : ioLoopServeStep s a with s2 | _ | _ | _
          · exact ih s2 msg hs.2
          · simp
          · exact absurd (serveStep_errAccept hstep) (by simp [hs.1])
          · simp
        · simp

/-- C5 counterexample: the claim that the relay can only return errors
raised before entering the loop fails on `io_loop_serve`.  From a live
initial state, a control-channel write request whose `accept()` fails makes
the loop itself return an error (`req.accept()?`, inside the loop). -/
theorem claim_C5_cex :
    ioLoopServeRun true false ⟨none, none, true, true, false, false⟩
      [.ctrl (.writeReq ⟨20⟩ false)] = .err "accepting write request failed"
  ∧ Outcome.err "accepting write request failed" ≠ Outcome.ok := by
  constructor
  · rfl
  · simp

/-- C5 (amended): `io_loop` absorbs every local or remote I/O failure into
a state transition and returns an error on no execution path whatsoever;
`io_loop_serve` likewise absorbs all read and write failures and returns an
error on no execution in which no control-channel write request fails to be
accepted — that accept failure is the one error propagated from inside the
loop. -/
theorem claim_C5 (rhReq pinReq rhReq2 pinReq2 : Bool) (s : IoLoopState) (ss : ServeState)
    (arms : List IoArm) (sarms : List ServeArm) (msg msg2 : String)
    (hacc : hasAcceptFailure sarms = false) :
    ioLoopRun rhReq pinReq s arms ≠ Outcome.err msg
  ∧ ioLoopServeRun rhReq2 pinReq2 ss sarms ≠ Outcome.err msg2 :=
  ⟨ioLoopRun_ne_err rhReq pinReq arms s msg,
   ioLoopServeRun_ne_err rhReq2 pinReq2 sarms ss msg2 hacc⟩

/-- C5 witness: concrete traces with I/O failures in both loops yield no
error. -/
theorem claim_C5_witness :
    ioLoopRun true true ⟨some ⟨20⟩, none, true, true⟩ [.remoteEnd] ≠ Outcome.err "x"
  ∧ ioLoopServeRun true false ⟨none, some ⟨20⟩, true, true, false, false⟩
      [.localData false, .ctrl .closed] ≠ Outcome.err "x" :=
  claim_C5 true true true false ⟨some ⟨20⟩, none, true, true⟩
    ⟨none, some ⟨20⟩, true, true, false, false⟩ [.remoteEnd]
    [.localData false, .ctrl .closed] "x" "x" rfl

/-- Helper: with the one-shot flag, the outer serving loop never completes
more than one session. -/
theorem servePerformLoop_oneShot_served_le (iters : List ServeIter) :
    (servePerformLoop true iters).served ≤ 1 := by
  induction iters with
  | nil => simp [servePerformLoop]
  | cons it rest ih =>
    cases it with
    | setupErr => simp [servePerformLoop]
    | channelClosed => simp [servePerformLoop]
    | spawnFail => simpa [servePerformLoop] using ih
    | session out =>
      cases out with
      | relayOk => simp [servePerformLoop]
      | relayErr => simp [servePerformLoop]
      | childExit => simp [servePerformLoop]

/-- Helper: without the one-shot flag, a trace of iterations that never
closes the channel and never propagates an error is consumed in full, every
completed session being counted. -/
theorem servePerformLoop_normal (iters : List ServeIter)
    (h : ∀ it ∈ iters, normalIter it = true) :
    servePerformLoop false iters = ⟨completedSessions iters, .ranOut⟩ := by
  induction iters with
  | nil => rfl
  | cons it rest ih =>
    have hit : normalIter it = true := h it (by simp)
    have hrest : ∀ x ∈ rest, normalIter x = true := fun x hx => h x (by simp [hx])
    cases it with
    | setupErr => simp [normalIter] at hit
    | channelClosed => simp [normalIter] at hit
    | spawnFail =>
      simpa [servePerformLoop, completedSessions, List.filter_cons,
        completedSession] using ih hrest
    | session out =>
      cases out with
      | relayErr => simp [normalIter] at hit
      | relayOk =>
        simp [servePerformLoop, completedSessions, List.filter_cons,
          completedSession, ih hrest]
      | childExit =>
        simp [servePerformLoop, completedSessions, List.filter_cons,
          completedSession, ih hrest]

/-- C6 counterexample: the claim that without the one-shot flag the serving
loop stops only when the control channel closes fails on the code.  A
session whose relay returns an error (propagated by `res?`) stops the loop
with an error even though the channel never closed. -/
theorem claim_C6_cex :
    servePerformLoop false [.session .relayErr] = ⟨0, .errored⟩
  ∧ ServeStop.errored ≠ ServeStop.channelClosed := by
  exact ⟨rfl, by simp⟩

/-- C6 (amended): with the one-shot flag set, at most one session is
served, and the loop exits immediately after the first completed session;
without the flag, the loop keeps accepting sessions indefinitely —
consuming every iteration and serving every completed session — and stops
only when the Control Channel yields no more events or when a setup or
relay error is propagated. -/
theorem claim_C6 (iters iters2 rest : List ServeIter) (out : SessionOutcome)
    (hnorm : ∀ it ∈ iters, normalIter it = true) (hout : out ≠ SessionOutcome.relayErr) :
    (servePerformLoop true iters2).served ≤ 1
  ∧ servePerformLoop true (.session out :: rest) = ⟨1, .oneShotDone⟩
  ∧ servePerformLoop false iters = ⟨completedSessions iters, .ranOut⟩
  ∧ servePerformLoop false (.channelClosed :: rest) = ⟨0, .channelClosed⟩ := by
  refine ⟨servePerformLoop_oneShot_served_le iters2, ?_,
    servePerformLoop_normal iters hnorm, rfl⟩
  cases out with
  | relayOk => rfl
  | relayErr => exact absurd rfl hout
  | childExit => rfl

/-- C6 witness: concrete serving traces for each clause of the amended
claim. -/
theorem claim_C6_witness :
    (servePerformLoop true [ServeIter.session SessionOutcome.relayErr]).served ≤ 1
  ∧ servePerformLoop true [ServeIter.session SessionOutcome.relayOk]
      = ⟨1, ServeStop.oneShotDone⟩
  ∧ servePerformLoop false [ServeIter.spawnFail, ServeIter.session SessionOutcome.childExit]
      = ⟨completedSessions [ServeIter.spawnFail, ServeIter.session SessionOutcome.childExit],
          ServeStop.ranOut⟩
  ∧ servePerformLoop false [ServeIter.channelClosed] = ⟨0, ServeStop.channelClosed⟩ :=
  claim_C6 [ServeIter.spawnFail, ServeIter.session SessionOutcome.childExit]
    [ServeIter.session SessionOutcome.relayErr] [] SessionOutcome.relayOk
    (by decide) (by decide)

/-- C7 counterexample: the claim quotes the expiry message as
"device, service, or characteristic not found", but the code returns
"device, service or characteristic not found" (no comma before "or"). -/
theorem claim_C7_cex :
    connectScan 7 15 [(15, .other)] = .error "device, service or characteristic not found"
  ∧ "device, service or characteristic not found"
      ≠ "device, service, or characteristic not found" := by
  constructor
  · rfl
  · decide

/-- C7 (amended): the connect scan is bounded by the single 15-second
deadline created before the loop: however many events have been handled —
including matches for the target whose characteristic lookup failed —
the deadline is never extended, so any event arriving at or after 15
seconds makes the command fail with exactly
"device, service or characteristic not found" (as does exhaustion of the
discovery events) provided no earlier event found the characteristic. -/
theorem claim_C7 (target t : Nat) (e : AdapterEvt) (pre rest : List (Nat × AdapterEvt))
    (hpre : ∀ p ∈ pre, isHit target p.2 = false) (ht : 15 ≤ t) :
    connectScan target 15 (pre ++ (t, e) :: rest) = .error notFoundMsg
  ∧ notFoundMsg = "device, service or characteristic not found" := by
  refine ⟨?_, rfl⟩
  induction pre with
  | nil =>
    simp only [List.nil_append, connectScan]
    rw [if_pos ht]
  | cons p pre2 ih =>
    obtain ⟨u, ev⟩ := p
    have hp : isHit target ev = false := hpre (u, ev) (by simp)
    have hpre2 : ∀ q ∈ pre2, isHit target q.2 = false := fun q hq => hpre q (by simp [hq])
    have ih2 := ih hpre2
    simp only [List.cons_append, connectScan]
    by_cases hu : 15 ≤ u
    · rw [if_pos hu]
    · rw [if_neg hu]
      cases ev with
      | other => exact ih2
      | deviceAdded a found =>
        cases hb : (a == target) with
        | false =>
          simp only [hb, Bool.false_eq_true, if_false]
          exact ih2
        | true =>
          cases found with
          | some c => simp [isHit, hb] at hp
          | none =>
            simp only [hb, if_true]
            exact ih2

/-- C7 witness: two matching events whose characteristic lookup failed are
handled at 3 s and 10 s, yet an event at 20 s still hits the original
15-second deadline — the deadline was not reset — and the scan fails with
the code's message. -/
theorem claim_C7_witness :
    connectScan 7 15 [(3, AdapterEvt.deviceAdded 7 none), (10, AdapterEvt.deviceAdded 7 none),
      (20, AdapterEvt.other)] = Except.error notFoundMsg
  ∧ notFoundMsg = "device, service or characteristic not found" :=
  claim_C7 7 20 AdapterEvt.other
    [(3, AdapterEvt.deviceAdded 7 none), (10, AdapterEvt.deviceAdded 7 none)] []
    (by decide) (by decide)

/-- C8: the discovery sweep resets its idle timeout on every qualifying
handled event — handling a device at time `t` (and likewise subscribing to
a not-yet-ready device) replaces the deadline by `t + T`, while a skipped
address leaves the state untouched — and once every address of an explicit
filter set has been handled the loop returns `filterDone` immediately,
whatever events (at whatever times) are still pending. -/
theorem claim_C8 (publicOnly filter : Bool) (T : Nat) (world : Nat → DevInfo)
    (s s2 s3 : DiscState) (t t2 t3 addr addr3 addr4 : Nat) (evts : List (Nat × DiscEvt))
    (hempty : s.addresses = []) (hfilter : filter = true)
    (hq1 : ((filter && !(s2.addresses.contains addr)) || s2.done.contains addr) = false)
    (hq2 : (publicOnly && (world addr).randomAddr) = false)
    (hrssi : (world addr).rssiPresent = true)
    (hq3 : ((filter && !(s2.addresses.contains addr3)) || s2.done.contains addr3) = false)
    (hq4 : (publicOnly && (world addr3).randomAddr) = false)
    (hrssi3 : (world addr3).rssiPresent = false)
    (hdone : s3.done.contains addr4 = true) :
    discoverLoop publicOnly filter T world s evts = (.filterDone, s)
  ∧ discHandle publicOnly filter T world s2 t addr
      = { s2 with addresses := s2.addresses.erase addr, done := addr :: s2.done,
                  deadline := t + T }
  ∧ discHandle publicOnly filter T world s2 t2 addr3
      = { s2 with subscribed := addr3 :: s2.subscribed, deadline := t2 + T }
  ∧ discHandle publicOnly filter T world s3 t3 addr4 = s3 := by
  refine ⟨?_, ?_, ?_, ?_⟩
  · subst hfilter
    cases evts with
    | nil => simp [discoverLoop, hempty]
    | cons p rest =>
      obtain ⟨t4, e4⟩ := p
      simp [discoverLoop, hempty]
  · simp only [discHandle]
    rw [hq1, hq2]
    simp [hrssi]
  · simp only [discHandle]
    rw [hq3, hq4]
    simp [hrssi3]
  · simp only [discHandle]
    rw [hdone]
    simp

/-- C8 witness: with filter set `{2, 3}` and address 1 already handled,
handling address 2 at 20 s resets the deadline to 35 s, a not-yet-ready
address 3 is subscribed with the same reset, an already-done address is
skipped unchanged, and a state whose filter set is exhausted ends the loop
at once despite a pending event at 100 s. -/
theorem claim_C8_witness :
    discoverLoop false true 15 (fun a => if a = 3 then DevInfo.mk false false
        else DevInfo.mk false true) ⟨[], [2, 1], [], 40⟩
      [(100, DiscEvt.deviceAdded 9)] = (DiscStop.filterDone, ⟨[], [2, 1], [], 40⟩)
  ∧ discHandle false true 15 (fun a => if a = 3 then DevInfo.mk false false
        else DevInfo.mk false true) ⟨[2, 3], [1], [], 25⟩ 20 2
      = ⟨[3], [2, 1], [], 35⟩
  ∧ discHandle false true 15 (fun a => if a = 3 then DevInfo.mk false false
        else DevInfo.mk false true) ⟨[2, 3], [1], [], 25⟩ 22 3
      = ⟨[2, 3], [1], [3], 37⟩
  ∧ discHandle false true 15 (fun a => if a = 3 then DevInfo.mk false false
        else DevInfo.mk false true) ⟨[2, 3], [1], [], 25⟩ 23 1
      = ⟨[2, 3], [1], [], 25⟩ :=
  claim_C8 false true 15
    (fun a => if a = 3 then DevInfo.mk false false else DevInfo.mk false true)
    ⟨[], [2, 1], [], 40⟩ ⟨[2, 3], [1], [], 25⟩ ⟨[2, 3], [1], [], 25⟩ 20 22 23 2 3 1
    [(100, DiscEvt.deviceAdded 9)] rfl rfl
    (by decide) (by decide) (by decide) (by decide) (by decide) (by decide) (by decide)

/-- C9: a characteristic supporting notify but not write yields
`rh = Some, wh = None`, which passes the capability check and enters the
relay; from that reachable state a local read that yields data reaches
`wh.as_mut().unwrap()` on an absent writer and panics instead of making a
graceful state transition. -/
theorem claim_C9 :
    notifyWriteSetup (some ⟨20⟩) none = .ok (some ⟨20⟩, none)
  ∧ connectSession true (some ⟨20⟩) none [IoArm.localData true] = .ok Outcome.panicked
  ∧ Outcome.panicked ≠ Outcome.ok := by
  refine ⟨rfl, rfl, by simp⟩

/-- C10: a spawn failure `continue`s to the next iteration of the serving
loop without reaching the one-shot check, so the loop behaves exactly as
if that accepted connection had not happened — in particular, with the
one-shot flag set, a further session is accepted and served after a spawn
failure. -/
theorem claim_C10 (oneShot : Bool) (rest : List ServeIter) :
    servePerformLoop oneShot (.spawnFail :: rest) = servePerformLoop oneShot rest
  ∧ servePerformLoop true [.spawnFail, .session .relayOk] = ⟨1, .oneShotDone⟩ :=
  ⟨rfl, rfl⟩

end Gattcat
